import Mathlib

/-!
Verification development for the Optoma projector integration
(`custom_components/optoma_projector`).  The definitions below are a shallow
embedding of the Python source: `coordinator.py` (response parsing, data
refresh, power commands, value clamping, command throttling, Telnet client),
`const.py` (protocol constants and the NUMBERS table), `media_player.py`
(derived volume level) and `number.py` (numeric-setting availability).
Python dicts are modelled as insertion-ordered association lists, Python
values occurring in device snapshots as `PyVal` (strings or integers),
floats as exact rationals, and fallible operations as `Option`.
-/

/-- A value stored in the projector snapshot dictionary.  The device protocol
produces only strings and integers (`json.loads` of the repaired response);
Python compares `int` and `str` as never equal, which `DecidableEq` on this
sum type mirrors. -/
inductive PyVal where
  | str : String → PyVal
  | int : Int → PyVal
deriving DecidableEq, Repr

/-- A Python dict `dict[str, Any]` restricted to snapshot values: an
insertion-ordered association list with unique keys maintained by `pySet`. -/
abbrev Data := List (String × PyVal)

/-- `d.get(k)`: first binding of `k`, if any. -/
def pyGet : Data → String → Option PyVal
  | [], _ => none
  | (k0, v0) :: rest, k => if k0 = k then some v0 else pyGet rest k

/-- `d[k] = v` on a Python dict: an existing key keeps its position and gets
the new value; a new key is appended at the end. -/
def pySet : Data → String → PyVal → Data
  | [], k, v => [(k, v)]
  | (k0, v0) :: rest, k, v =>
      if k0 = k then (k0, v) :: rest else (k0, v0) :: pySet rest k v

/- ---------------------------------------------------------------------
   Constants from `const.py`.
--------------------------------------------------------------------- -/

/-- `KEY_POWER = "pw"` (const.py). -/
def KEY_POWER : String := "pw"

/-- `KEY_VOLUME = "m"` (const.py). -/
def KEY_VOLUME : String := "m"

/-- `POWER_STATE_STANDBY = "0"` (const.py). -/
def POWER_STATE_STANDBY : String := "0"

/-- `POWER_STATE_ON = "1"` (const.py). -/
def POWER_STATE_ON : String := "1"

/-- `POWER_STATE_WARMING = "2"` (const.py). -/
def POWER_STATE_WARMING : String := "2"

/-- `POWER_STATE_COOLING = "3"` (const.py). -/
def POWER_STATE_COOLING : String := "3"

/-- `VALUE_NOT_AVAILABLE = "255"` (const.py). -/
def VALUE_NOT_AVAILABLE : String := "255"

/-- `CMD_POWER_ON = "btn_powon=btn_powon"` (const.py). -/
def CMD_POWER_ON : String := "btn_powon=btn_powon"

/-- `CMD_POWER_OFF = "btn_powoff=btn_powoff"` (const.py). -/
def CMD_POWER_OFF : String := "btn_powoff=btn_powoff"

/-- `CMD_QUERY = "QueryControl=QueryControl"` (const.py). -/
def CMD_QUERY : String := "QueryControl=QueryControl"

/-- `MIN_COMMAND_INTERVAL = 0.2` seconds (const.py), as an exact rational. -/
def minCommandInterval : ℚ := 1/5

/-- `NUMBERS` (const.py): per numeric setting the tuple
(id, state_key, param, min, max).  The display name, step and unit fields of
the source table only feed the UI layer and are omitted here. -/
def NUMBERS : List (String × String × String × Int × Int) :=
  [ ("volume", "m", "vol", 0, 100)
  , ("mic_volume", "z", "mic", 0, 100)
  , ("brightness", "c", "bright", -50, 50)
  , ("contrast", "d", "contrast", -50, 50)
  , ("sharpness", "f", "Sharp", 1, 15)
  , ("phase", "A", "Phase", -63, 63)
  , ("brilliant_color", "F4", "brill", 1, 10)
  , ("zoom_value", "r", "zoom", -5, 20)
  , ("h_keystone", "J", "hkeys", -30, 30)
  , ("v_keystone", "K", "vkeys", -30, 30)
  , ("h_shift", "M", "hpos", -100, 100)
  , ("v_shift", "N", "vpos", -100, 100)
  , ("sleep_timer", "F5", "sleep", 0, 990)
  , ("projector_id", "F8", "projid", 0, 99)
  , ("remote_code", "F9", "remote", 0, 99) ]

/- ---------------------------------------------------------------------
   Character helpers shared by the parser models.
--------------------------------------------------------------------- -/

/-- The `\x7b` character (opening curly brace), named to keep string and
character literals free of raw braces. -/
def lbraceChar : Char := Char.ofNat 123

/-- The `\x7d` character (closing curly brace). -/
def rbraceChar : Char := Char.ofNat 125

/-- The double-quote character. -/
def dqChar : Char := Char.ofNat 34

/-- Python regex `\s`: space, tab, newline, carriage return, vertical tab,
form feed (ASCII subset; the device emits only ASCII). -/
def isPyWs (c : Char) : Bool :=
  c = ' ' || c = '\t' || c = '\n' || c = '\r' ||
  c = Char.ofNat 11 || c = Char.ofNat 12

/-- JSON whitespace accepted by `json.loads`: space, tab, newline, carriage
return. -/
def isJsonWs (c : Char) : Bool :=
  c = ' ' || c = '\t' || c = '\n' || c = '\r'

/-- Regex class `[A-Za-z0-9_]` used for bare identifier keys. -/
def isIdentChar (c : Char) : Bool := c.isAlphanum || c = '_'

/-- Digit run to a natural number. -/
def digitsToNat (ds : List Char) : Nat :=
  ds.foldl (fun a c => a * 10 + (c.toNat - 48)) 0

/-- `text.find(c)` from Python, as an `Option` (Python returns -1 when
absent): index of the first occurrence. -/
def pyFindChar : List Char → Char → Option Nat
  | [], _ => none
  | c :: rest, t =>
      if c = t then some 0 else (pyFindChar rest t).map (· + 1)

/-- `text.rfind(c)` from Python: index of the last occurrence. -/
def pyRFindChar (cs : List Char) (t : Char) : Option Nat :=
  (pyFindChar cs.reverse t).map (fun i => cs.length - 1 - i)

/- ---------------------------------------------------------------------
   `OptomaCoordinator._parse_response` (coordinator.py lines 505-522):
   substring from first brace to last brace, quote the bare keys with
   `re.sub`, then `json.loads`.
--------------------------------------------------------------------- -/

/-- One match attempt of the tail of regex `([,{])\s*([A-Za-z0-9_]+)\s*:`
starting right after the delimiter: optional whitespace, a nonempty
identifier run, optional whitespace, then a colon.  Returns the identifier
and the remaining input after the colon. -/
def tryKeyMatch (cs : List Char) : Option (List Char × List Char) :=
  let cs1 := cs.dropWhile isPyWs
  let ident := cs1.takeWhile isIdentChar
  let cs2 := (cs1.dropWhile isIdentChar).dropWhile isPyWs
  if ident.isEmpty then none
  else
    match cs2 with
    | c :: rest => if c = ':' then some (ident, rest) else none
    | [] => none

/-- `re.sub(r"([,{])\s*([A-Za-z0-9_]+)\s*:", r'\1"\2":', s)` from
`_parse_response`: after each `,` or opening brace that is followed by a bare
identifier key and a colon, the key is wrapped in double quotes (the matched
whitespace is dropped, exactly as the replacement template does).  The scan
is oblivious to string literals, like the source regex.  Fuel is the input
length; every successful match consumes at least one character. -/
def quoteKeysAux : Nat → List Char → List Char
  | 0, cs => cs
  | _ + 1, [] => []
  | fuel + 1, c :: rest =>
      if c = ',' || c = lbraceChar then
        match tryKeyMatch rest with
        | some (ident, rest2) =>
            c :: dqChar :: (ident ++ dqChar :: ':' :: quoteKeysAux fuel rest2)
        | none => c :: quoteKeysAux fuel rest
      else c :: quoteKeysAux fuel rest

/-- Key-quoting pass of `_parse_response`. -/
def quoteKeys (cs : List Char) : List Char := quoteKeysAux cs.length cs

/-- String literal body after the opening quote; the accumulator holds the
characters read so far, reversed.  Backslash escapes do not occur in device
responses and are treated as a decode failure by this model. -/
def parseStringBody : List Char → List Char → Option (String × List Char)
  | [], _ => none
  | c :: rest, acc =>
      if c = dqChar then some (String.mk acc.reverse, rest)
      else if c = '\\' then none
      else parseStringBody rest (c :: acc)

/-- A JSON string literal starting at the opening quote. -/
def parseStringLit : List Char → Option (String × List Char)
  | c :: rest => if c = dqChar then parseStringBody rest [] else none
  | [] => none

/-- A JSON integer numeral (digit run, no leading zeros); a following `.`,
`e` or `E` would make it a float, which device snapshots never contain and
this model treats as a decode failure. -/
def parseJsonNat (cs : List Char) : Option (Nat × List Char) :=
  let ds := cs.takeWhile Char.isDigit
  let rest := cs.dropWhile Char.isDigit
  if ds.isEmpty then none
  else if 1 < ds.length && ds.head? = some '0' then none
  else
    match rest with
    | c :: _ =>
        if c = '.' || c = 'e' || c = 'E' then none
        else some (digitsToNat ds, rest)
    | [] => some (digitsToNat ds, rest)

/-- A JSON value as it occurs in device snapshots: a string or an integer
(with optional minus sign).  Other JSON constructs do not occur in device
responses and are treated as decode failures by this model. -/
def parseJsonValue (cs : List Char) : Option (PyVal × List Char) :=
  match cs with
  | c :: rest =>
      if c = dqChar then
        (parseStringLit cs).map (fun p => (PyVal.str p.1, p.2))
      else if c = '-' then
        (parseJsonNat rest).map (fun p => (PyVal.int (-(p.1 : Int)), p.2))
      else
        (parseJsonNat cs).map (fun p => (PyVal.int (p.1 : Int), p.2))
  | [] => none

/-- Skip JSON whitespace. -/
def skipWs (cs : List Char) : List Char := cs.dropWhile isJsonWs

/-- The member list of a JSON object: `"key" : value` pairs separated by
commas.  Later duplicates overwrite earlier ones in place, as `json.loads`
building a Python dict does.  Returns the accumulated dict and the rest of
the input (whitespace already skipped), positioned at the closing brace. -/
def parseMembers : Nat → List Char → Data → Option (Data × List Char)
  | 0, _, _ => none
  | fuel + 1, cs, acc =>
      match parseStringLit (skipWs cs) with
      | none => none
      | some (k, cs1) =>
          match skipWs cs1 with
          | c :: cs2 =>
              if c = ':' then
                match parseJsonValue (skipWs cs2) with
                | none => none
                | some (v, cs3) =>
                    let acc2 := pySet acc k v
                    match skipWs cs3 with
                    | c2 :: cs4 =>
                        if c2 = ',' then parseMembers fuel cs4 acc2
                        else some (acc2, c2 :: cs4)
                    | [] => some (acc2, [])
              else none
          | [] => none

/-- `json.loads` restricted to a single flat object whose members are
strings or integers — the only shape the device produces.  The whole input
must be consumed up to trailing whitespace, as `json.loads` requires. -/
def jsonLoads (cs : List Char) : Option Data :=
  match skipWs cs with
  | c :: cs1 =>
      if c = lbraceChar then
        match skipWs cs1 with
        | c2 :: cs2 =>
            if c2 = rbraceChar then
              if (skipWs cs2).isEmpty then some [] else none
            else
              match parseMembers cs1.length cs1 [] with
              | some (d, c3 :: rest2) =>
                  if c3 = rbraceChar && (skipWs rest2).isEmpty then some d
                  else none
              | _ => none
        | [] => none
      else none
  | [] => none

/-- `OptomaCoordinator._parse_response`: take the substring from the first
opening brace to the last closing brace (fail when either is absent), quote
the bare keys, then decode as JSON; a decode error yields `none`. -/
def parse_response (text : String) : Option Data :=
  let cs := text.toList
  match pyFindChar cs lbraceChar, pyRFindChar cs rbraceChar with
  | some s, some e =>
      let jsonChars := (cs.drop s).take (e + 1 - s)
      jsonLoads (quoteKeys jsonChars)
  | _, _ => none

/- ---------------------------------------------------------------------
   Derived state flags (coordinator.py lines 272-311) and the consumer
   derivations from media_player.py and number.py.  `Option Data` models
   `self.data`, which is `None` before the first refresh; Python truthiness
   of a dict makes the empty dict behave like `None` in these guards.
--------------------------------------------------------------------- -/

/-- `OptomaCoordinator.is_on`: `False` without data, else whether the power
value is the ON or WARMING string. -/
def is_on : Option Data → Bool
  | none => false
  | some d =>
      if d.isEmpty then false
      else
        match pyGet d KEY_POWER with
        | some v =>
            decide (v = PyVal.str POWER_STATE_ON ∨ v = PyVal.str POWER_STATE_WARMING)
        | none => false

/-- `OptomaCoordinator.is_warming`: power value equals the WARMING string. -/
def is_warming : Option Data → Bool
  | none => false
  | some d =>
      if d.isEmpty then false
      else decide (pyGet d KEY_POWER = some (PyVal.str POWER_STATE_WARMING))

/-- `OptomaCoordinator.is_cooling`: power value equals the COOLING string. -/
def is_cooling : Option Data → Bool
  | none => false
  | some d =>
      if d.isEmpty then false
      else decide (pyGet d KEY_POWER = some (PyVal.str POWER_STATE_COOLING))

/-- Python `int(x)` on snapshot values: integers pass through; strings are
stripped of surrounding whitespace and must be an optionally signed digit
run (underscore separators, which never occur in device data, are not
modelled). -/
def pyToInt : PyVal → Option Int
  | PyVal.int n => some n
  | PyVal.str s =>
      let cs := (((s.toList.dropWhile isPyWs).reverse).dropWhile isPyWs).reverse
      match cs with
      | '-' :: ds =>
          if !ds.isEmpty && ds.all Char.isDigit then
            some (-(digitsToNat ds : Int))
          else none
      | '+' :: ds =>
          if !ds.isEmpty && ds.all Char.isDigit then
            some (digitsToNat ds : Int)
          else none
      | ds =>
          if !ds.isEmpty && ds.all Char.isDigit then
            some (digitsToNat ds : Int)
          else none

/-- Python `float(x)` on snapshot values, as an exact rational.  Device
values are integers or integer strings; fractional literals never occur and
are not modelled. -/
def pyFloatQ : PyVal → Option ℚ
  | PyVal.int n => some (n : ℚ)
  | PyVal.str s => (pyToInt (PyVal.str s)).map (fun n => (n : ℚ))

/-- `OptomaMediaPlayer.volume_level` (media_player.py lines 123-134): the
value under the volume key, unless absent or the `"255"` sentinel, divided
by 100 (exact, Python divides by `100.0`); an unparsable value yields
`None`. -/
def volume_level (d? : Option Data) : Option ℚ :=
  match d? with
  | none => none
  | some d =>
      if d.isEmpty then none
      else
        match pyGet d KEY_VOLUME with
        | none => none
        | some v =>
            if v = PyVal.str VALUE_NOT_AVAILABLE then none
            else
              match pyToInt v with
              | some n => some ((n : ℚ) / 100)
              | none => none

/-- `OptomaCoordinator.is_key_available` (coordinator.py lines 659-666):
the key is present and its value is not the `"255"` sentinel string. -/
def is_key_available (d? : Option Data) (key : String) : Bool :=
  match d? with
  | none => false
  | some d =>
      if d.isEmpty then false
      else
        match pyGet d key with
        | none => false
        | some v => decide (v ≠ PyVal.str VALUE_NOT_AVAILABLE)

/-- `OptomaNumber.native_value` (number.py lines 91-102): the value under the
entity's state key, unless absent or the `"255"` sentinel, converted with
`float`; a conversion error yields `None`. -/
def native_value (d? : Option Data) (stateKey : String) : Option ℚ :=
  match d? with
  | none => none
  | some d =>
      if d.isEmpty then none
      else
        match pyGet d stateKey with
        | none => none
        | some v =>
            if v = PyVal.str VALUE_NOT_AVAILABLE then none
            else pyFloatQ v

/-- `OptomaNumber.available` (number.py lines 82-89): last update succeeded,
the projector is on, and the state key is available. -/
def number_available (lastUpdateSuccess : Bool) (d? : Option Data)
    (stateKey : String) : Bool :=
  lastUpdateSuccess && is_on d? && is_key_available d? stateKey

/- ---------------------------------------------------------------------
   `OptomaCoordinator._async_update_data` (coordinator.py lines 318-355).
   The polling-interval adjustment at the top of the method only changes
   `update_interval` and is modelled separately by the power-command model;
   the fetch result of `_send_command_with_retry` is the input here:
   a dict, `None`, or a raised connection/timeout error.
--------------------------------------------------------------------- -/

/-- Outcome of `_send_command_with_retry(CMD_QUERY)`: a returned value
(`dict` or `None`) or a raised `aiohttp.ClientError` / `TimeoutError`. -/
inductive FetchOutcome where
  | ok : Option Data → FetchOutcome
  | clientError : FetchOutcome
  | timeoutError : FetchOutcome
deriving DecidableEq, Repr

/-- A fetch that did not produce usable data: `None`, an empty dict
(falsy in `if data:`), or a raised error. -/
def fetchFailed : FetchOutcome → Bool
  | FetchOutcome.ok (some d) => d.isEmpty
  | FetchOutcome.ok none => true
  | FetchOutcome.clientError => true
  | FetchOutcome.timeoutError => true

/-- Persistent update state: `self._last_data` and
`self._consecutive_failures`. -/
structure UpdSt where
  lastData : Data
  failures : Nat
deriving DecidableEq, Repr

/-- Result of a refresh: the returned snapshot, or a raised `UpdateFailed`
with its message. -/
inductive UpdResult where
  | ok : Data → UpdResult
  | failed : String → UpdResult
deriving DecidableEq, Repr

/-- `OptomaCoordinator._async_update_data`: a truthy fetch result replaces
the snapshot and resets the failure counter; an empty result or an error
falls back to the prior snapshot when one exists (errors also increment the
failure counter); otherwise `UpdateFailed` is raised. -/
def async_update_data (s : UpdSt) (r : FetchOutcome) : UpdSt × UpdResult :=
  match r with
  | FetchOutcome.ok (some d) =>
      if !d.isEmpty then ({ lastData := d, failures := 0 }, UpdResult.ok d)
      else if !s.lastData.isEmpty then (s, UpdResult.ok s.lastData)
      else (s, UpdResult.failed "Empty response from projector")
  | FetchOutcome.ok none =>
      if !s.lastData.isEmpty then (s, UpdResult.ok s.lastData)
      else (s, UpdResult.failed "Empty response from projector")
  | FetchOutcome.clientError =>
      let s2 : UpdSt := { lastData := s.lastData, failures := s.failures + 1 }
      if !s.lastData.isEmpty then (s2, UpdResult.ok s.lastData)
      else (s2, UpdResult.failed "Error communicating with projector")
  | FetchOutcome.timeoutError =>
      let s2 : UpdSt := { lastData := s.lastData, failures := s.failures + 1 }
      if !s.lastData.isEmpty then (s2, UpdResult.ok s.lastData)
      else (s2, UpdResult.failed "Timeout communicating with projector")

/- ---------------------------------------------------------------------
   Command dispatch and the power state machine
   (coordinator.py lines 524-657).
--------------------------------------------------------------------- -/

/-- A request reaching the device: a form-encoded HTTP command body on the
primary transport, or a Telnet power command on the fallback transport.
Retries of one dispatch are abstracted into a single entry. -/
inductive DevCmd where
  | http : String → DevCmd
  | telnetPowerOn : DevCmd
  | telnetPowerOff : DevCmd
deriving DecidableEq, Repr

/-- Coordinator state visible to the command API: published data
(`self.data`, `None` before the first refresh), `self._last_data`, the
optimistic-mode flag, whether the Telnet fallback client is configured, and
whether the update interval was switched to the transition interval. -/
structure Coord where
  data? : Option Data
  lastData : Data
  optimistic : Bool
  telnet : Bool
  transitionPolling : Bool
deriving DecidableEq, Repr

/-- Result of a command-API call: the reported success, the state after the
call, the device commands issued in order, and whether a resynchronizing
refresh was requested (`async_request_refresh`). -/
structure CmdOut where
  success : Bool
  st : Coord
  cmds : List DevCmd
  refreshRequested : Bool
deriving DecidableEq, Repr

/-- Truthiness of the `dict | None` result of `_send_command_with_retry`. -/
def truthy : Option Data → Bool
  | some d => !d.isEmpty
  | none => false

/-- `OptomaCoordinator.async_send_command` (coordinator.py lines 524-541):
dispatch the body on the primary transport; a truthy result replaces
`_last_data` and is published via `async_set_updated_data`; otherwise a
refresh is requested and failure is reported. -/
def async_send_command (st : Coord) (body : String) (result : Option Data) :
    CmdOut :=
  if truthy result then
    let d := result.getD []
    { success := true
      st := { st with lastData := d, data? := some d }
      cmds := [DevCmd.http body]
      refreshRequested := false }
  else
    { success := false, st := st, cmds := [DevCmd.http body]
      refreshRequested := true }

/-- `OptomaCoordinator.update_optimistic` (coordinator.py lines 651-657):
when optimistic mode is enabled, copy `_last_data`, set the key, and publish
the copy; otherwise do nothing. -/
def update_optimistic (st : Coord) (key : String) (v : PyVal) : Coord :=
  if st.optimistic then
    let nd := pySet st.lastData key v
    { st with lastData := nd, data? := some nd }
  else st

/-- `OptomaCoordinator.async_power_on` (coordinator.py lines 543-569).
Inputs beyond the state: the primary-transport result for `CMD_POWER_ON`
and the fallback client's `power_on()` result (consulted only when the
primary dispatch fails and the fallback is configured). -/
def async_power_on (st : Coord) (httpResult : Option Data) (telnetOk : Bool) :
    CmdOut :=
  if is_cooling st.data? then
    { success := false, st := st, cmds := [], refreshRequested := false }
  else if is_warming st.data? || is_on st.data? then
    { success := true, st := st, cmds := [], refreshRequested := false }
  else
    let o := async_send_command st CMD_POWER_ON httpResult
    let o2 :=
      if !o.success && st.telnet then
        if telnetOk then
          { success := true
            st := update_optimistic o.st KEY_POWER (PyVal.str POWER_STATE_WARMING)
            cmds := o.cmds ++ [DevCmd.telnetPowerOn]
            refreshRequested := o.refreshRequested }
        else
          { success := false, st := o.st
            cmds := o.cmds ++ [DevCmd.telnetPowerOn]
            refreshRequested := o.refreshRequested }
      else o
    if o2.success then { o2 with st := { o2.st with transitionPolling := true } }
    else o2

/-- `OptomaCoordinator.async_power_off` (coordinator.py lines 571-597),
symmetric to `async_power_on` with the warming/cooling roles swapped. -/
def async_power_off (st : Coord) (httpResult : Option Data) (telnetOk : Bool) :
    CmdOut :=
  if is_warming st.data? then
    { success := false, st := st, cmds := [], refreshRequested := false }
  else if is_cooling st.data? || !is_on st.data? then
    { success := true, st := st, cmds := [], refreshRequested := false }
  else
    let o := async_send_command st CMD_POWER_OFF httpResult
    let o2 :=
      if !o.success && st.telnet then
        if telnetOk then
          { success := true
            st := update_optimistic o.st KEY_POWER (PyVal.str POWER_STATE_COOLING)
            cmds := o.cmds ++ [DevCmd.telnetPowerOff]
            refreshRequested := o.refreshRequested }
        else
          { success := false, st := o.st
            cmds := o.cmds ++ [DevCmd.telnetPowerOff]
            refreshRequested := o.refreshRequested }
      else o
    if o2.success then { o2 with st := { o2.st with transitionPolling := true } }
    else o2

/-- `OptomaCoordinator.async_set_value` (coordinator.py lines 621-645) for a
numeric value: clamp below by `min_val` and above by `max_val` when given,
then dispatch `param=value` through `async_send_command`. -/
def async_set_value (st : Coord) (param : String) (value : Int)
    (minVal maxVal : Option Int) (httpResult : Option Data) : CmdOut :=
  let v1 :=
    match minVal with
    | some mn => if value < mn then mn else value
    | none => value
  let v2 :=
    match maxVal with
    | some mx => if v1 > mx then mx else v1
    | none => v1
  async_send_command st (param ++ "=" ++ toString v2) httpResult

/- ---------------------------------------------------------------------
   Fallback (Telnet) wire format: the command templates of const.py lines
   34-37 and `TelnetClient.send_command` (coordinator.py lines 102-117),
   which formats the template with the projector id and writes the result
   followed by a carriage return.
--------------------------------------------------------------------- -/

/-- `TELNET_CMD_POWER_ON = "~{id:02d}00 1"` (const.py). -/
def TELNET_CMD_POWER_ON : String := "~\x7bid:02d\x7d00 1"

/-- `TELNET_CMD_POWER_OFF = "~{id:02d}00 0"` (const.py). -/
def TELNET_CMD_POWER_OFF : String := "~\x7bid:02d\x7d00 0"

/-- `TELNET_CMD_POWER_STATUS = "~{id:02d}124 1"` (const.py). -/
def TELNET_CMD_POWER_STATUS : String := "~\x7bid:02d\x7d124 1"

/-- Python `"{:02d}".format(n)`: decimal digits, zero-padded on the left to
width two (the projector id is a natural number, 0-99 by configuration). -/
def format02d (n : Nat) : String :=
  if n < 10 then "0" ++ toString n else toString n

/-- The input remaining after a `\x7bid:02d\x7d` placeholder, when `cs` is
positioned just after its opening brace. -/
def placeholderTail : List Char → Option (List Char)
  | 'i' :: 'd' :: ':' :: '0' :: '2' :: 'd' :: c2 :: r3 =>
      if c2 = rbraceChar then some r3 else none
  | _ => none

/-- Substitution of the `\x7bid:02d\x7d` placeholder: every occurrence is
replaced by the formatted id; all other characters pass through.  This is
`str.format(id=...)` restricted to the placeholder these three templates
contain.  Fuel is the input length; every step consumes at least one
character. -/
def substIdAux (repl : List Char) : Nat → List Char → List Char
  | 0, cs => cs
  | _ + 1, [] => []
  | fuel + 1, c :: rest =>
      if c = lbraceChar then
        match placeholderTail rest with
        | some r3 => repl ++ substIdAux repl fuel r3
        | none => c :: substIdAux repl fuel rest
      else c :: substIdAux repl fuel rest

/-- The line `TelnetClient.send_command` writes for a template: the template
with the projector id substituted, terminated by a carriage return
(`command + "\r"`). -/
def telnetSendLine (tpl : String) (id : Nat) : String :=
  String.mk (substIdAux (format02d id).toList tpl.toList.length tpl.toList) ++ "\r"

/-- The wire format asserted by the spec, as a checker: a tilde, exactly two
id digits, exactly three command-code digits, a space, a nonempty value,
then a carriage return.  This definition follows the spec text, to be
compared with the lines the source actually produces. -/
def specWireFormat (s : String) : Bool :=
  match s.toList with
  | '~' :: d1 :: d2 :: d3 :: d4 :: d5 :: ' ' :: rest =>
      d1.isDigit && d2.isDigit && d3.isDigit && d4.isDigit && d5.isDigit &&
      (match rest.reverse with
       | c :: vrev => c = '\r' && !vrev.isEmpty
       | [] => false)
  | _ => false

/- ---------------------------------------------------------------------
   Command throttling under asyncio's cooperative scheduling:
   `OptomaCoordinator._throttle_command` (coordinator.py lines 491-498) and
   the lock structure of `_send_command` (lines 434-458).  Each task runs
   the sequence: throttle (read the shared `_last_command_time`, sleep if
   the gap is short, write it back), then acquire the shared transport lock
   and issue the HTTP request, then release the lock after the response.
   Code between awaits is atomic; `await asyncio.sleep` and lock
   acquisition are the suspension points, so the model's atomic steps are
   cut exactly there.  The model is generic in the time scale `τ` (an
   ordered additive group) with the minimum interval passed explicitly:
   the source measures seconds with `time.monotonic()` and compares to
   `MIN_COMMAND_INTERVAL = 0.2`, and the concrete runs below use integer
   ticks of 10 ms, so the interval is 20 ticks.  The `LOCK_TIMEOUT` guard
   never fires in the scenarios considered and is not modelled.
--------------------------------------------------------------------- -/

/-- Control point of one `_send_command` call: before the throttle; inside
`asyncio.sleep` until the wake time; waiting on the transport lock; holding
the lock until the response completes at the release time; finished. -/
inductive TaskPC (τ : Type) where
  | start : TaskPC τ
  | sleeping : τ → TaskPC τ
  | wantLock : TaskPC τ
  | holding : τ → TaskPC τ
  | done : TaskPC τ
deriving DecidableEq, Repr

/-- One in-flight `_send_command` call: its control point and how long its
HTTP exchange holds the lock. -/
structure ThrottleTask (τ : Type) where
  pc : TaskPC τ
  dur : τ
deriving DecidableEq, Repr

/-- Shared state: the monotonic clock, `self._last_command_time`, whether
`self._lock` is held, the tasks, and the times at which requests reached
the transport, in order. -/
structure ThrottleSys (τ : Type) where
  time : τ
  lastCommandTime : τ
  lockHeld : Bool
  tasks : List (ThrottleTask τ)
  sends : List τ
deriving DecidableEq, Repr

/-- Replace task `i`. -/
def setTask {τ : Type} (sys : ThrottleSys τ) (i : Nat) (t : ThrottleTask τ) :
    ThrottleSys τ :=
  { sys with tasks := sys.tasks.set i t }

/-- Run the enabled atomic step of task `i`, if any.  `interval` is
`MIN_COMMAND_INTERVAL` in the chosen time scale.

`start` is the throttle body up to its first await: read the clock and
`_last_command_time`; with a large enough gap, write `_last_command_time`
(the second `time.monotonic()` call, same atomic block) and move on to the
lock; otherwise sleep until `_last_command_time + MIN_COMMAND_INTERVAL`.
`sleeping` resumes once the clock reaches the wake time and then performs
the deferred write of `_last_command_time`.  `wantLock` acquires the free
lock and issues the request — the moment the transport observes it.
`holding` releases the lock once the exchange duration has elapsed. -/
def stepTask {τ : Type} [AddCommGroup τ] [LinearOrder τ]
    (interval : τ) (sys : ThrottleSys τ) (i : Nat) : ThrottleSys τ :=
  match sys.tasks[i]? with
  | none => sys
  | some tk =>
      match tk.pc with
      | TaskPC.start =>
          if sys.time - sys.lastCommandTime < interval then
            setTask sys i
              { tk with pc := TaskPC.sleeping (sys.lastCommandTime + interval) }
          else
            { setTask sys i { tk with pc := TaskPC.wantLock } with
                lastCommandTime := sys.time }
      | TaskPC.sleeping wake =>
          if wake ≤ sys.time then
            { setTask sys i { tk with pc := TaskPC.wantLock } with
                lastCommandTime := sys.time }
          else sys
      | TaskPC.wantLock =>
          if sys.lockHeld then sys
          else
            { setTask sys i { tk with pc := TaskPC.holding (sys.time + tk.dur) } with
                lockHeld := true, sends := sys.sends ++ [sys.time] }
      | TaskPC.holding rel =>
          if rel ≤ sys.time then
            { setTask sys i { tk with pc := TaskPC.done } with lockHeld := false }
          else sys
      | TaskPC.done => sys

/-- Advance the monotonic clock (never backwards). -/
def advanceTime {τ : Type} [LinearOrder τ] (sys : ThrottleSys τ) (t : τ) :
    ThrottleSys τ :=
  if sys.time ≤ t then { sys with time := t } else sys

/-- A scheduling decision: run a task's next atomic step, or let time
pass. -/
inductive SchedStep (τ : Type) where
  | run : Nat → SchedStep τ
  | advance : τ → SchedStep τ
deriving DecidableEq, Repr

/-- Execute a schedule. -/
def runSched {τ : Type} [AddCommGroup τ] [LinearOrder τ]
    (interval : τ) (sys : ThrottleSys τ) : List (SchedStep τ) → ThrottleSys τ
  | [] => sys
  | SchedStep.run i :: rest => runSched interval (stepTask interval sys i) rest
  | SchedStep.advance t :: rest => runSched interval (advanceTime sys t) rest

/-- The spacing the spec asserts: consecutive transport observations at
least the minimum interval apart. -/
def spacedB {τ : Type} [AddCommGroup τ] [LinearOrder τ]
    (interval : τ) : List τ → Bool
  | [] => true
  | [_] => true
  | a :: b :: rest => decide (interval ≤ b - a) && spacedB interval (b :: rest)

/-- `MIN_COMMAND_INTERVAL` in ticks of 10 ms: 20 ticks = 0.2 s. -/
def minIntervalTicks : ℤ := 20

/-- Initial state of the racing scenario, in 10 ms ticks: the previous
command was recorded at tick 990 (9.9 s), the clock reads tick 1000 (10 s),
two `_send_command` calls (a poll and a user command) are about to start;
each HTTP exchange takes one tick (10 ms). -/
def throttleRaceInit : ThrottleSys ℤ :=
  { time := 1000
    lastCommandTime := 990
    lockHeld := false
    tasks := [ { pc := TaskPC.start, dur := 1 }
             , { pc := TaskPC.start, dur := 1 } ]
    sends := [] }

/-- The racing schedule: both tasks run their throttle check from the same
stale `_last_command_time`, both sleep until tick 1010 (10.1 s), wake, and
then reach the transport one lock-hold (one tick) apart. -/
def throttleRaceSched : List (SchedStep ℤ) :=
  [ SchedStep.run 0, SchedStep.run 1
  , SchedStep.advance 1010
  , SchedStep.run 0, SchedStep.run 1
  , SchedStep.run 0
  , SchedStep.advance 1011
  , SchedStep.run 0
  , SchedStep.run 1 ]

/- ---------------------------------------------------------------------
   Helper lemmas.
--------------------------------------------------------------------- -/

lemma pyGet_ne_nil {d : Data} {k : String} {v : PyVal}
    (h : pyGet d k = some v) : d.isEmpty = false := by
  cases d with
  | nil => simp [pyGet] at h
  | cons a l => rfl

lemma pyGet_pySet (l : Data) (k : String) (v : PyVal) :
    pyGet (pySet l k v) k = some v := by
  induction l with
  | nil => simp [pySet, pyGet]
  | cons a rest ih =>
      by_cases h : a.1 = k
      · simp [pySet, pyGet, h]
      · simp [pySet, pyGet, h, ih]

lemma async_send_command_failed (st : Coord) (body : String)
    (hr : Option Data) (h : truthy hr = false) :
    async_send_command st body hr =
      { success := false, st := st, cmds := [DevCmd.http body]
        refreshRequested := true } := by
  simp [async_send_command, h]

lemma async_send_command_cmds (st : Coord) (body : String) (hr : Option Data) :
    (async_send_command st body hr).cmds = [DevCmd.http body] := by
  by_cases h : truthy hr = true
  · simp [async_send_command, h]
  · simp [async_send_command, Bool.eq_false_iff.mpr h]

lemma async_update_data_failed (s : UpdSt) (r : FetchOutcome)
    (hf : fetchFailed r = true) (hne : s.lastData ≠ []) :
    (async_update_data s r).2 = UpdResult.ok s.lastData ∧
    (async_update_data s r).1.lastData = s.lastData := by
  have hne2 : s.lastData.isEmpty = false := by
    cases h : s.lastData with
    | nil => exact absurd h hne
    | cons a l => rfl
  cases r with
  | ok od =>
      cases od with
      | none => simp [async_update_data, hne2]
      | some d =>
          have hd : d.isEmpty = true := by simpa [fetchFailed] using hf
          simp [async_update_data, hd, hne2]
  | clientError => simp [async_update_data, hne2]
  | timeoutError => simp [async_update_data, hne2]

/- ---------------------------------------------------------------------
   Claim theorems.
--------------------------------------------------------------------- -/

/-- Claim C1, counterexample.  For the raw text
`<html>junk\x7bpw:1,a:0,m:50\x7dmore</html>` the parser does not return the
string-valued mapping the claim states, and the derived is-on flag is false
rather than true: the regex repair quotes only the keys, so the bare
numerals decode as integers, and `is_on` compares the integer 1 against the
power-state string "1". -/
theorem parse_scenario_counterexample :
    parse_response "<html>junk\x7bpw:1,a:0,m:50\x7dmore</html>" ≠
      some [("pw", PyVal.str "1"), ("a", PyVal.str "0"), ("m", PyVal.str "50")] ∧
    is_on (parse_response "<html>junk\x7bpw:1,a:0,m:50\x7dmore</html>") = false := by
  decide

/-- Claim C1, amended.  For the raw text
`<html>junk\x7bpw:1,a:0,m:50\x7dmore</html>` the parser returns the mapping
pw 1, a 0, m 50 with integer values; the derived is-on flag is false (the
integer 1 never equals the power-state string "1" in Python), and the
derived volume level equals 0.50 (the integer branch of the volume
derivation divides by 100). -/
theorem parse_scenario_amended :
    parse_response "<html>junk\x7bpw:1,a:0,m:50\x7dmore</html>" =
      some [("pw", PyVal.int 1), ("a", PyVal.int 0), ("m", PyVal.int 50)] ∧
    is_on (parse_response "<html>junk\x7bpw:1,a:0,m:50\x7dmore</html>") = false ∧
    volume_level (parse_response "<html>junk\x7bpw:1,a:0,m:50\x7dmore</html>") =
      some (1/2 : ℚ) := by
  have hp : parse_response "<html>junk\x7bpw:1,a:0,m:50\x7dmore</html>" =
      some [("pw", PyVal.int 1), ("a", PyVal.int 0), ("m", PyVal.int 50)] := by
    decide
  refine ⟨hp, by decide, ?_⟩
  rw [hp]
  simp [volume_level, pyGet, pyToInt, KEY_VOLUME, VALUE_NOT_AVAILABLE]
  norm_num

/-- Claim C2.  A fetch that fails (empty or `None` result, connection error,
or timeout) while a previously populated snapshot exists returns that prior
snapshot unchanged and keeps it as `_last_data`; consequently, across any
sequence of failed fetches the snapshot never reverts to empty — it stays
exactly the initial snapshot. -/
theorem snapshot_persists_across_failed_fetches (s : UpdSt) (r : FetchOutcome)
    (rs : List FetchOutcome)
    (hf : fetchFailed r = true) (hne : s.lastData ≠ [])
    (hall : rs.all fetchFailed = true) :
    (async_update_data s r).2 = UpdResult.ok s.lastData ∧
    (async_update_data s r).1.lastData = s.lastData ∧
    (rs.foldl (fun a x => (async_update_data a x).1) s).lastData = s.lastData := by
  refine ⟨(async_update_data_failed s r hf hne).1,
          (async_update_data_failed s r hf hne).2, ?_⟩
  induction rs generalizing s with
  | nil => rfl
  | cons x xs ih =>
      rw [List.all_cons, Bool.and_eq_true] at hall
      have hstep := (async_update_data_failed s x hall.1 hne).2
      have hne2 : (async_update_data s x).1.lastData ≠ [] := by
        rw [hstep]; exact hne
      have := ih (async_update_data s x).1 hne2 hall.2
      simpa [List.foldl_cons, hstep] using this

/-- Claim C2 witness: a concrete populated snapshot survives a client error
and a following run of failed fetches. -/
theorem snapshot_persists_witness :
    fetchFailed FetchOutcome.clientError = true ∧
    ({ lastData := [("pw", PyVal.str "1")], failures := 0 } : UpdSt).lastData ≠ [] ∧
    ([FetchOutcome.timeoutError, FetchOutcome.ok none,
      FetchOutcome.ok (some [])].all fetchFailed = true) ∧
    ((async_update_data { lastData := [("pw", PyVal.str "1")], failures := 0 }
        FetchOutcome.clientError).2 =
      UpdResult.ok [("pw", PyVal.str "1")] ∧
     (async_update_data { lastData := [("pw", PyVal.str "1")], failures := 0 }
        FetchOutcome.clientError).1.lastData = [("pw", PyVal.str "1")] ∧
     (([FetchOutcome.timeoutError, FetchOutcome.ok none,
        FetchOutcome.ok (some [])].foldl (fun a x => (async_update_data a x).1)
        { lastData := [("pw", PyVal.str "1")], failures := 0 }).lastData =
       [("pw", PyVal.str "1")])) :=
  ⟨by decide, by decide, by decide,
   snapshot_persists_across_failed_fetches
     { lastData := [("pw", PyVal.str "1")], failures := 0 }
     FetchOutcome.clientError
     [FetchOutcome.timeoutError, FetchOutcome.ok none, FetchOutcome.ok (some [])]
     (by decide) (by decide) (by decide)⟩

/-- Claim C9.  For every numeric setting, a raw snapshot value equal to the
sentinel string "255" is reported to consumers as absent: `native_value`
yields `None` and the number entity's availability is false — and this holds
uniformly, including for the sleep-timer key, whose declared range 0..990 in
the NUMBERS table contains 255, so a genuine reading of 255 is
indistinguishable from "not available". -/
theorem sentinel_value_reported_absent (d : Data) (key : String)
    (lastSuccess : Bool)
    (h : pyGet d key = some (PyVal.str VALUE_NOT_AVAILABLE)) :
    native_value (some d) key = none ∧
    number_available lastSuccess (some d) key = false ∧
    ("sleep_timer", "F5", "sleep", (0 : Int), (990 : Int)) ∈ NUMBERS ∧
    (0 : Int) ≤ 255 ∧ (255 : Int) ≤ 990 := by
  have hne : d.isEmpty = false := pyGet_ne_nil h
  refine ⟨?_, ?_, by decide, by decide, by decide⟩
  · simp [native_value, hne, h]
  · simp [number_available, is_key_available, hne, h]

/-- Claim C9 witness: a sleep-timer snapshot reading of the string "255" is
reported absent even though 255 lies inside the declared 0..990 range. -/
theorem sentinel_value_reported_absent_witness :
    pyGet [("F5", PyVal.str "255")] "F5" =
      some (PyVal.str VALUE_NOT_AVAILABLE) ∧
    (native_value (some [("F5", PyVal.str "255")]) "F5" = none ∧
     number_available true (some [("F5", PyVal.str "255")]) "F5" = false ∧
     ("sleep_timer", "F5", "sleep", (0 : Int), (990 : Int)) ∈ NUMBERS ∧
     (0 : Int) ≤ 255 ∧ (255 : Int) ≤ 990) :=
  ⟨by decide,
   sentinel_value_reported_absent [("F5", PyVal.str "255")] "F5" true (by decide)⟩

/-- Claim C3.  A power command in the opposing in-progress transition is
refused without contacting the device on either transport: `async_power_on`
while cooling, and `async_power_off` while warming, each return failure,
issue no device command, request no refresh, and leave the state
unchanged. -/
theorem power_blocked_during_opposite_transition
    (s1 s2 : Coord) (hr1 hr2 : Option Data) (t1 t2 : Bool)
    (h1 : is_cooling s1.data? = true) (h2 : is_warming s2.data? = true) :
    async_power_on s1 hr1 t1 =
      { success := false, st := s1, cmds := [], refreshRequested := false } ∧
    async_power_off s2 hr2 t2 =
      { success := false, st := s2, cmds := [], refreshRequested := false } := by
  constructor
  · simp [async_power_on, h1]
  · simp [async_power_off, h2]

/-- Claim C3 witness: a cooling snapshot blocks power-on and a warming
snapshot blocks power-off, concretely. -/
theorem power_blocked_during_opposite_transition_witness :
    is_cooling (some [("pw", PyVal.str "3")] : Option Data) = true ∧
    is_warming (some [("pw", PyVal.str "2")] : Option Data) = true ∧
    (async_power_on
        { data? := some [("pw", PyVal.str "3")]
          lastData := [("pw", PyVal.str "3")]
          optimistic := false, telnet := true, transitionPolling := false }
        none true =
      { success := false
        st := { data? := some [("pw", PyVal.str "3")]
                lastData := [("pw", PyVal.str "3")]
                optimistic := false, telnet := true, transitionPolling := false }
        cmds := [], refreshRequested := false } ∧
     async_power_off
        { data? := some [("pw", PyVal.str "2")]
          lastData := [("pw", PyVal.str "2")]
          optimistic := false, telnet := true, transitionPolling := false }
        none true =
      { success := false
        st := { data? := some [("pw", PyVal.str "2")]
                lastData := [("pw", PyVal.str "2")]
                optimistic := false, telnet := true, transitionPolling := false }
        cmds := [], refreshRequested := false }) :=
  ⟨by decide, by decide,
   power_blocked_during_opposite_transition
     { data? := some [("pw", PyVal.str "3")]
       lastData := [("pw", PyVal.str "3")]
       optimistic := false, telnet := true, transitionPolling := false }
     { data? := some [("pw", PyVal.str "2")]
       lastData := [("pw", PyVal.str "2")]
       optimistic := false, telnet := true, transitionPolling := false }
     none none true true (by decide) (by decide)⟩

/-- Claim C10.  A power command in the same-direction in-progress transition
is treated as already in the desired state: `async_power_on` while warming
and `async_power_off` while cooling each return success, issue no device
command, and leave the state unchanged. -/
theorem power_noop_during_same_direction_transition
    (s1 s2 : Coord) (d1 d2 : Data) (hr1 hr2 : Option Data) (t1 t2 : Bool)
    (hd1 : s1.data? = some d1)
    (hp1 : pyGet d1 KEY_POWER = some (PyVal.str POWER_STATE_WARMING))
    (hd2 : s2.data? = some d2)
    (hp2 : pyGet d2 KEY_POWER = some (PyVal.str POWER_STATE_COOLING)) :
    async_power_on s1 hr1 t1 =
      { success := true, st := s1, cmds := [], refreshRequested := false } ∧
    async_power_off s2 hr2 t2 =
      { success := true, st := s2, cmds := [], refreshRequested := false } := by
  have hne1 : d1.isEmpty = false := pyGet_ne_nil hp1
  have hne2 : d2.isEmpty = false := pyGet_ne_nil hp2
  have hc1 : is_cooling s1.data? = false := by
    simp [is_cooling, hd1, hne1, hp1, POWER_STATE_WARMING, POWER_STATE_COOLING]
  have hw1 : is_warming s1.data? = true := by
    simp [is_warming, hd1, hne1, hp1]
  have hw2 : is_warming s2.data? = false := by
    simp [is_warming, hd2, hne2, hp2, POWER_STATE_WARMING, POWER_STATE_COOLING]
  have hc2 : is_cooling s2.data? = true := by
    simp [is_cooling, hd2, hne2, hp2]
  constructor
  · simp [async_power_on, hc1, hw1]
  · simp [async_power_off, hw2, hc2]

/-- Claim C10 witness: concrete warming and cooling snapshots. -/
theorem power_noop_during_same_direction_transition_witness :
    (some [("pw", PyVal.str "2")] : Option Data) = some [("pw", PyVal.str "2")] ∧
    pyGet [("pw", PyVal.str "2")] KEY_POWER = some (PyVal.str POWER_STATE_WARMING) ∧
    pyGet [("pw", PyVal.str "3")] KEY_POWER = some (PyVal.str POWER_STATE_COOLING) ∧
    (async_power_on
        { data? := some [("pw", PyVal.str "2")]
          lastData := [("pw", PyVal.str "2")]
          optimistic := false, telnet := false, transitionPolling := false }
        none false =
      { success := true
        st := { data? := some [("pw", PyVal.str "2")]
                lastData := [("pw", PyVal.str "2")]
                optimistic := false, telnet := false, transitionPolling := false }
        cmds := [], refreshRequested := false } ∧
     async_power_off
        { data? := some [("pw", PyVal.str "3")]
          lastData := [("pw", PyVal.str "3")]
          optimistic := false, telnet := false, transitionPolling := false }
        none false =
      { success := true
        st := { data? := some [("pw", PyVal.str "3")]
                lastData := [("pw", PyVal.str "3")]
                optimistic := false, telnet := false, transitionPolling := false }
        cmds := [], refreshRequested := false }) :=
  ⟨rfl, by decide, by decide,
   power_noop_during_same_direction_transition
     { data? := some [("pw", PyVal.str "2")]
       lastData := [("pw", PyVal.str "2")]
       optimistic := false, telnet := false, transitionPolling := false }
     { data? := some [("pw", PyVal.str "3")]
       lastData := [("pw", PyVal.str "3")]
       optimistic := false, telnet := false, transitionPolling := false }
     [("pw", PyVal.str "2")] [("pw", PyVal.str "3")]
     none none false false rfl (by decide) rfl (by decide)⟩

/-- Claim C4.  Power commands are idempotent in the desired steady state:
with the snapshot's power value ON, `async_power_on` returns success, issues
no device command and leaves the state unchanged — hence a second call does
exactly the same; symmetrically, `async_power_off` with power in standby
returns success with no device command. -/
theorem power_idempotent_in_steady_state
    (s1 s2 : Coord) (d1 d2 : Data) (hrA hrB hr2 : Option Data)
    (tA tB t2 : Bool)
    (hd1 : s1.data? = some d1)
    (hp1 : pyGet d1 KEY_POWER = some (PyVal.str POWER_STATE_ON))
    (hd2 : s2.data? = some d2)
    (hp2 : pyGet d2 KEY_POWER = some (PyVal.str POWER_STATE_STANDBY)) :
    async_power_on s1 hrA tA =
      { success := true, st := s1, cmds := [], refreshRequested := false } ∧
    async_power_on (async_power_on s1 hrA tA).st hrB tB =
      { success := true, st := s1, cmds := [], refreshRequested := false } ∧
    async_power_off s2 hr2 t2 =
      { success := true, st := s2, cmds := [], refreshRequested := false } := by
  have hne1 : d1.isEmpty = false := pyGet_ne_nil hp1
  have hne2 : d2.isEmpty = false := pyGet_ne_nil hp2
  have hc1 : is_cooling s1.data? = false := by
    simp [is_cooling, hd1, hne1, hp1, POWER_STATE_ON, POWER_STATE_COOLING]
  have hon1 : is_on s1.data? = true := by
    simp [is_on, hd1, hne1, hp1]
  have hw2 : is_warming s2.data? = false := by
    simp [is_warming, hd2, hne2, hp2, POWER_STATE_STANDBY, POWER_STATE_WARMING]
  have hon2 : is_on s2.data? = false := by
    simp [is_on, hd2, hne2, hp2, POWER_STATE_STANDBY, POWER_STATE_ON,
          POWER_STATE_WARMING]
  have hfirst : async_power_on s1 hrA tA =
      { success := true, st := s1, cmds := [], refreshRequested := false } := by
    simp [async_power_on, hc1, hon1]
  refine ⟨hfirst, ?_, ?_⟩
  · rw [hfirst]
    simp [async_power_on, hc1, hon1]
  · simp [async_power_off, hw2, hon2]

/-- Claim C4 witness: concrete ON and standby snapshots. -/
theorem power_idempotent_in_steady_state_witness :
    pyGet [("pw", PyVal.str "1")] KEY_POWER = some (PyVal.str POWER_STATE_ON) ∧
    pyGet [("pw", PyVal.str "0")] KEY_POWER = some (PyVal.str POWER_STATE_STANDBY) ∧
    (async_power_on
        { data? := some [("pw", PyVal.str "1")]
          lastData := [("pw", PyVal.str "1")]
          optimistic := false, telnet := true, transitionPolling := false }
        none true =
      { success := true
        st := { data? := some [("pw", PyVal.str "1")]
                lastData := [("pw", PyVal.str "1")]
                optimistic := false, telnet := true, transitionPolling := false }
        cmds := [], refreshRequested := false } ∧
     async_power_on
        (async_power_on
          { data? := some [("pw", PyVal.str "1")]
            lastData := [("pw", PyVal.str "1")]
            optimistic := false, telnet := true, transitionPolling := false }
          none true).st none true =
      { success := true
        st := { data? := some [("pw", PyVal.str "1")]
                lastData := [("pw", PyVal.str "1")]
                optimistic := false, telnet := true, transitionPolling := false }
        cmds := [], refreshRequested := false } ∧
     async_power_off
        { data? := some [("pw", PyVal.str "0")]
          lastData := [("pw", PyVal.str "0")]
          optimistic := false, telnet := true, transitionPolling := false }
        none true =
      { success := true
        st := { data? := some [("pw", PyVal.str "0")]
                lastData := [("pw", PyVal.str "0")]
                optimistic := false, telnet := true, transitionPolling := false }
        cmds := [], refreshRequested := false }) :=
  ⟨by decide, by decide,
   power_idempotent_in_steady_state
     { data? := some [("pw", PyVal.str "1")]
       lastData := [("pw", PyVal.str "1")]
       optimistic := false, telnet := true, transitionPolling := false }
     { data? := some [("pw", PyVal.str "0")]
       lastData := [("pw", PyVal.str "0")]
       optimistic := false, telnet := true, transitionPolling := false }
     [("pw", PyVal.str "1")] [("pw", PyVal.str "0")]
     none none none true true true rfl (by decide) rfl (by decide)⟩

/-- Claim C5, counterexample.  With optimistic mode disabled (the default),
a power-on whose primary dispatch fails and whose configured fallback
succeeds reports success, yet the consumer-visible power value stays "0":
`update_optimistic` is a no-op when `self.optimistic` is false, so the
snapshot does not reflect the transitional warming value. -/
theorem fallback_optimistic_counterexample :
    (async_power_on
        { data? := some [("pw", PyVal.str "0")]
          lastData := [("pw", PyVal.str "0")]
          optimistic := false, telnet := true, transitionPolling := false }
        none true).success = true ∧
    (async_power_on
        { data? := some [("pw", PyVal.str "0")]
          lastData := [("pw", PyVal.str "0")]
          optimistic := false, telnet := true, transitionPolling := false }
        none true).st.data? = some [("pw", PyVal.str "0")] ∧
    pyGet ((async_power_on
        { data? := some [("pw", PyVal.str "0")]
          lastData := [("pw", PyVal.str "0")]
          optimistic := false, telnet := true, transitionPolling := false }
        none true).st.data?.getD []) KEY_POWER ≠
      some (PyVal.str POWER_STATE_WARMING) := by
  decide

/-- Claim C5, amended.  When optimistic mode is enabled, a power command
whose primary dispatch fails and whose configured fallback succeeds reports
success and immediately publishes the transitional optimistic power value:
warming after power-on, cooling after power-off. -/
theorem fallback_success_applies_optimistic_value
    (s1 s2 : Coord) (hr1 hr2 : Option Data)
    (ho1 : s1.optimistic = true) (ht1 : s1.telnet = true)
    (hf1 : truthy hr1 = false)
    (hc1 : is_cooling s1.data? = false)
    (hw1 : (is_warming s1.data? || is_on s1.data?) = false)
    (ho2 : s2.optimistic = true) (ht2 : s2.telnet = true)
    (hf2 : truthy hr2 = false)
    (hw2 : is_warming s2.data? = false)
    (hc2 : (is_cooling s2.data? || !is_on s2.data?) = false) :
    ((async_power_on s1 hr1 true).success = true ∧
     pyGet (async_power_on s1 hr1 true).st.lastData KEY_POWER =
       some (PyVal.str POWER_STATE_WARMING) ∧
     (async_power_on s1 hr1 true).st.data? =
       some (async_power_on s1 hr1 true).st.lastData) ∧
    ((async_power_off s2 hr2 true).success = true ∧
     pyGet (async_power_off s2 hr2 true).st.lastData KEY_POWER =
       some (PyVal.str POWER_STATE_COOLING) ∧
     (async_power_off s2 hr2 true).st.data? =
       some (async_power_off s2 hr2 true).st.lastData) := by
  have h1 := async_send_command_failed s1 CMD_POWER_ON hr1 hf1
  have h2 := async_send_command_failed s2 CMD_POWER_OFF hr2 hf2
  constructor
  · simp [async_power_on, hc1, hw1, h1, ht1, update_optimistic, ho1, pyGet_pySet]
  · simp [async_power_off, hw2, hc2, h2, ht2, update_optimistic, ho2, pyGet_pySet]

/-- Claim C5 witness: with optimistic mode enabled, a failed primary
dispatch plus a successful fallback yields success and a published
warming / cooling power value. -/
theorem fallback_success_applies_optimistic_value_witness :
    ({ data? := some [("pw", PyVal.str "0")]
       lastData := [("pw", PyVal.str "0")]
       optimistic := true, telnet := true, transitionPolling := false } :
         Coord).optimistic = true ∧
    truthy none = false ∧
    is_cooling (some [("pw", PyVal.str "0")] : Option Data) = false ∧
    is_warming (some [("pw", PyVal.str "1")] : Option Data) = false ∧
    (((async_power_on
          { data? := some [("pw", PyVal.str "0")]
            lastData := [("pw", PyVal.str "0")]
            optimistic := true, telnet := true, transitionPolling := false }
          none true).success = true ∧
      pyGet (async_power_on
          { data? := some [("pw", PyVal.str "0")]
            lastData := [("pw", PyVal.str "0")]
            optimistic := true, telnet := true, transitionPolling := false }
          none true).st.lastData KEY_POWER =
        some (PyVal.str POWER_STATE_WARMING) ∧
      (async_power_on
          { data? := some [("pw", PyVal.str "0")]
            lastData := [("pw", PyVal.str "0")]
            optimistic := true, telnet := true, transitionPolling := false }
          none true).st.data? =
        some (async_power_on
          { data? := some [("pw", PyVal.str "0")]
            lastData := [("pw", PyVal.str "0")]
            optimistic := true, telnet := true, transitionPolling := false }
          none true).st.lastData) ∧
     ((async_power_off
          { data? := some [("pw", PyVal.str "1")]
            lastData := [("pw", PyVal.str "1")]
            optimistic := true, telnet := true, transitionPolling := false }
          none true).success = true ∧
      pyGet (async_power_off
          { data? := some [("pw", PyVal.str "1")]
            lastData := [("pw", PyVal.str "1")]
            optimistic := true, telnet := true, transitionPolling := false }
          none true).st.lastData KEY_POWER =
        some (PyVal.str POWER_STATE_COOLING) ∧
      (async_power_off
          { data? := some [("pw", PyVal.str "1")]
            lastData := [("pw", PyVal.str "1")]
            optimistic := true, telnet := true, transitionPolling := false }
          none true).st.data? =
        some (async_power_off
          { data? := some [("pw", PyVal.str "1")]
            lastData := [("pw", PyVal.str "1")]
            optimistic := true, telnet := true, transitionPolling := false }
          none true).st.lastData)) :=
  ⟨rfl, rfl, by decide, by decide,
   fallback_success_applies_optimistic_value
     { data? := some [("pw", PyVal.str "0")]
       lastData := [("pw", PyVal.str "0")]
       optimistic := true, telnet := true, transitionPolling := false }
     { data? := some [("pw", PyVal.str "1")]
       lastData := [("pw", PyVal.str "1")]
       optimistic := true, telnet := true, transitionPolling := false }
     none none rfl rfl rfl (by decide) (by decide)
     rfl rfl rfl (by decide) (by decide)⟩

/-- Claim C6.  The minimum command spacing is not enforced between
concurrent dispatches: in the modelled cooperative execution of
`_throttle_command` plus the transport lock, two overlapping
`_send_command` calls both compute their throttle from the same stale
`_last_command_time`, wake together, and reach the transport one tick
(10 ms) apart — far less than `MIN_COMMAND_INTERVAL` (20 ticks = 0.2 s,
the last conjunct ties the tick scale to the rational constant).  The
throttle's read-sleep-write happens before the lock is acquired, so the
spacing check races. -/
theorem throttle_spacing_violated :
    (runSched minIntervalTicks throttleRaceInit throttleRaceSched).sends =
      [1010, 1011] ∧
    spacedB minIntervalTicks
      (runSched minIntervalTicks throttleRaceInit throttleRaceSched).sends =
      false ∧
    (minIntervalTicks : ℚ) / 100 = minCommandInterval := by
  refine ⟨by decide, by decide, ?_⟩
  norm_num [minIntervalTicks, minCommandInterval]

/-- Claim C7.  For a numeric value with both bounds given (and the bounds
ordered), `async_set_value` dispatches exactly the clamp of the input into
the interval: the call is the plain dispatch of `param=clamped-value`, so
clamping is not an error — the command is still issued and the call returns
the dispatch result. -/
theorem set_value_clamps_before_dispatch
    (st : Coord) (param : String) (v mn mx : Int) (hr : Option Data)
    (h : mn ≤ mx) :
    async_set_value st param v (some mn) (some mx) hr =
      async_send_command st (param ++ "=" ++ toString (min mx (max mn v))) hr ∧
    (async_set_value st param v (some mn) (some mx) hr).cmds =
      [DevCmd.http (param ++ "=" ++ toString (min mx (max mn v)))] := by
  have hval : (if (if v < mn then mn else v) > mx then mx
               else if v < mn then mn else v) = min mx (max mn v) := by
    rcases lt_or_le v mn with h1 | h1
    · rw [if_pos h1, if_neg (not_lt.mpr h),
          max_eq_left (le_of_lt h1), min_eq_right h]
    · rw [if_neg (not_lt.mpr h1), max_eq_right h1]
      rcases le_or_lt v mx with h2 | h2
      · rw [if_neg (not_lt.mpr h2), min_eq_right h2]
      · rw [if_pos h2, min_eq_left (le_of_lt h2)]
  have heq : async_set_value st param v (some mn) (some mx) hr =
      async_send_command st (param ++ "=" ++ toString (min mx (max mn v))) hr := by
    simp only [async_set_value]
    rw [hval]
  exact ⟨heq, by rw [heq]; exact async_send_command_cmds st _ hr⟩

/-- Claim C7 witness: an input above the volume maximum is dispatched as the
maximum. -/
theorem set_value_clamps_before_dispatch_witness :
    (0 : Int) ≤ 100 ∧
    (async_set_value
        { data? := none, lastData := [], optimistic := false
          telnet := false, transitionPolling := false }
        "vol" 150 (some 0) (some 100) none =
      async_send_command
        { data? := none, lastData := [], optimistic := false
          telnet := false, transitionPolling := false }
        ("vol" ++ "=" ++ toString (min (100 : Int) (max 0 150))) none ∧
     (async_set_value
        { data? := none, lastData := [], optimistic := false
          telnet := false, transitionPolling := false }
        "vol" 150 (some 0) (some 100) none).cmds =
      [DevCmd.http ("vol" ++ "=" ++ toString (min (100 : Int) (max 0 150)))]) :=
  ⟨by decide,
   set_value_clamps_before_dispatch
     { data? := none, lastData := [], optimistic := false
       telnet := false, transitionPolling := false }
     "vol" 150 0 100 none (by decide)⟩

/-- Claim C8, counterexample.  The power-on request the fallback transport
writes for device id 0 is `~0000 1` followed by a carriage return: after the
tilde and the 2-digit id come only the two digits "00" before the space, so
the line does not match the claimed `~{2-digit-id}{3-digit-code} {value}\r`
format, which requires three code digits. -/
theorem telnet_wire_format_counterexample :
    telnetSendLine TELNET_CMD_POWER_ON 0 = "~0000 1\r" ∧
    specWireFormat (telnetSendLine TELNET_CMD_POWER_ON 0) = false := by
  decide

/-- Claim C8, amended.  Every request written on the fallback transport has
the form tilde, zero-padded 2-digit device id, command code, space, value,
carriage return — where the code is the two digits "00" for power-on and
power-off and the three digits "124" for the power-status query (only the
status line therefore matches the spec's 3-digit-code format). -/
theorem telnet_wire_format_amended (id : Nat) (h : id < 100) :
    telnetSendLine TELNET_CMD_POWER_ON id = "~" ++ format02d id ++ "00 1\r" ∧
    telnetSendLine TELNET_CMD_POWER_OFF id = "~" ++ format02d id ++ "00 0\r" ∧
    telnetSendLine TELNET_CMD_POWER_STATUS id = "~" ++ format02d id ++ "124 1\r" ∧
    (format02d id).length = 2 ∧
    (format02d id).toList.all Char.isDigit = true ∧
    specWireFormat (telnetSendLine TELNET_CMD_POWER_STATUS id) = true := by
  revert h
  revert id
  decide

/-- Claim C8 witness: the three wire lines for device id 7. -/
theorem telnet_wire_format_amended_witness :
    7 < 100 ∧
    (telnetSendLine TELNET_CMD_POWER_ON 7 = "~" ++ format02d 7 ++ "00 1\r" ∧
     telnetSendLine TELNET_CMD_POWER_OFF 7 = "~" ++ format02d 7 ++ "00 0\r" ∧
     telnetSendLine TELNET_CMD_POWER_STATUS 7 = "~" ++ format02d 7 ++ "124 1\r" ∧
     (format02d 7).length = 2 ∧
     (format02d 7).toList.all Char.isDigit = true ∧
     specWireFormat (telnetSendLine TELNET_CMD_POWER_STATUS 7) = true) :=
  ⟨by decide, telnet_wire_format_amended 7 (by decide)⟩
